import Mathlib

/-!
Shallow embedding of the price-registration record browser
(`src/static/script.js`) and the serverless API adapters
(`src/api/api.js`, `src/static/script.js` lines 177-184).

Fields of a record are strings; an absent field is modelled as the empty
string `""`, which coincides with how the client renders it (`x || ''`)
and filters it (`filter(Boolean)` drops `""` and `undefined` alike).
-/

/-- One price-registration record (upper-snake-case JSON keys from the API). -/
structure Record where
  FCHA_REGISTRO : String := ""
  DEPARTAMENTO : String := ""
  PROVINCIA : String := ""
  DISTRITO : String := ""
  DIRECCION : String := ""
  RAZON_SOCIAL : String := ""
  TIPO_ESTABLECIMIENTO : String := ""
  PRODUCTO : String := ""
  PRECIO_VENTA : String := ""
  UNIDAD_MEDIDA : String := ""
deriving DecidableEq, Repr

/-- The module-level mutable state of the client script:
`currentData`, `currentPage`, `totalPages` (script.js lines 11-14). -/
structure ClientState where
  currentData : List Record
  currentPage : Nat
  totalPages : Nat
deriving DecidableEq, Repr

/-- `itemsPerPage` (script.js line 13). -/
def itemsPerPage : Nat := 10

/-- A `<select>` element: its option list (text, value) and its current value.
Assigning a value with no matching `<option>` leaves the select with value `""`. -/
structure SelectElem where
  options : List (String × String)
  value : String
deriving DecidableEq, Repr

/-- One `<li>` of the rendered pagination control.  `prev`/`next` carry the
`data-page` target (`currentPage - 1` / `currentPage + 1`, computed in JS
number arithmetic, hence `Int`); `page` carries the page number and whether it
is the active page; `ellipsis` is the non-interactive placeholder
(no `data-page` attribute). -/
inductive PageItem where
  | prev (target : Int) (disabled : Bool)
  | page (n : Nat) (active : Bool)
  | ellipsis
  | next (target : Int) (disabled : Bool)
deriving DecidableEq, Repr

/-- The DOM elements the script touches.  `none` models an absent element.
`tableBody` holds the rendered rows (each a list of 10 cell strings),
`paginationContainer` the rendered page items, `paginationInfo` its text. -/
structure Dom where
  tableBody : Option (List (List String))
  paginationContainer : Option (List PageItem)
  paginationInfo : Option String
  departamentoSelect : Option SelectElem
  provinciaSelect : Option SelectElem
  distritoSelect : Option SelectElem
  tipoEstablecimientoSelect : Option SelectElem
  loadingVisible : Bool
deriving DecidableEq, Repr

/-- `Math.ceil(currentData.length / itemsPerPage)` (script.js line 25),
expressed on naturals: exact quotient plus one when there is a remainder. -/
def totalPagesCalc (n : Nat) : Nat :=
  n / itemsPerPage + (if n % itemsPerPage = 0 then 0 else 1)

/-- The 10 cells of one table row (script.js lines 66-79); `x || ''` on a
string is the identity under the `""`-for-absent convention. -/
def rowOf (r : Record) : List String :=
  [r.FCHA_REGISTRO, r.DEPARTAMENTO, r.PROVINCIA, r.DISTRITO, r.DIRECCION,
   r.RAZON_SOCIAL, r.TIPO_ESTABLECIMIENTO, r.PRODUCTO, r.PRECIO_VENTA,
   r.UNIDAD_MEDIDA]

/-- `renderTable` (script.js lines 58-80): no-op when `tbody` is absent,
otherwise replaces the body with `currentData.slice(start, start+10)`
where `start = (currentPage - 1) * itemsPerPage`. -/
def renderTable (st : ClientState) (dom : Dom) : Dom :=
  match dom.tableBody with
  | none => dom
  | some _ =>
    let start := (st.currentPage - 1) * itemsPerPage
    let pageData := (st.currentData.drop start).take itemsPerPage
    { dom with tableBody := some (pageData.map rowOf) }

/-- The body of the page-number loop of `updatePagination`
(script.js lines 34-40) at index `i`: a numbered link when
`i === 1 || i === totalPages || (i >= currentPage-2 && i <= currentPage+2)`
(the JS comparisons are over numbers, so `i >= currentPage - 2` is
`currentPage <= i + 2` on naturals), an ellipsis when
`i === currentPage-3 || i === currentPage+3`, nothing otherwise. -/
def paginationEntry (currentPage totalPages i : Nat) : Option PageItem :=
  if i = 1 ∨ i = totalPages ∨ (currentPage ≤ i + 2 ∧ i ≤ currentPage + 2) then
    some (PageItem.page i (i = currentPage))
  else if i + 3 = currentPage ∨ i = currentPage + 3 then
    some PageItem.ellipsis
  else none

/-- The loop indices `1, 2, ..., totalPages`. -/
def pageRange (totalPages : Nat) : List Nat :=
  (List.range totalPages).map (· + 1)

/-- The full item list `updatePagination` renders into the container
(script.js lines 31-43): an Anterior link targeting `currentPage - 1`
(disabled on page 1), the windowed page numbers, and a Siguiente link
targeting `currentPage + 1` (disabled on the last page). -/
def paginationItems (currentPage totalPages : Nat) : List PageItem :=
  PageItem.prev ((currentPage : Int) - 1) (currentPage = 1) ::
    ((pageRange totalPages).filterMap (paginationEntry currentPage totalPages) ++
      [PageItem.next ((currentPage : Int) + 1) (currentPage = totalPages)])

/-- Result of running `updatePagination` (or any handler that may throw):
the state and DOM reached, and whether a TypeError escaped. -/
structure PaginationResult where
  state : ClientState
  dom : Dom
  threw : Bool
deriving DecidableEq, Repr

/-- `updatePagination` (script.js lines 19-56).  Returns early when the
container is absent or `currentData` is empty.  Otherwise it updates the
module variable `totalPages`, then writes `paginationInfo.textContent`
WITHOUT a null check - when `.pagination-info` is absent this throws a
TypeError (after `totalPages` was already updated) - and finally renders
the item list into the container. -/
def updatePagination (st : ClientState) (dom : Dom) : PaginationResult :=
  match dom.paginationContainer with
  | none => ⟨st, dom, false⟩
  | some _ =>
    if st.currentData.length = 0 then ⟨st, dom, false⟩
    else
      let totalPages := totalPagesCalc st.currentData.length
      let startItem := (st.currentPage - 1) * itemsPerPage + 1
      let endItem := min (st.currentPage * itemsPerPage) st.currentData.length
      let n := st.currentData.length
      let st' : ClientState := { st with totalPages := totalPages }
      match dom.paginationInfo with
      | none => ⟨st', dom, true⟩
      | some _ =>
        ⟨st',
         { dom with
            paginationInfo := some s!"Mostrando {startItem} a {endItem} de {n} registros",
            paginationContainer := some (paginationItems st.currentPage totalPages) },
         false⟩

/-- The `data-page` attribute of a rendered item, as read by the click
handler: `parseInt` of the attribute, `none` when the attribute is absent
(the ellipsis link), which makes `parseInt` return `NaN`. -/
def dataPage : PageItem → Option Int
  | PageItem.prev t _ => some t
  | PageItem.page n _ => some (n : Int)
  | PageItem.ellipsis => none
  | PageItem.next t _ => some t

/-- The page-link click handler (script.js lines 45-55): when the parsed
target is a number in `(0, totalPages]` it sets `currentPage` and re-runs
`renderTable` and `updatePagination`; otherwise nothing happens. -/
def pageLinkClick (st : ClientState) (dom : Dom) (target : Option Int) :
    PaginationResult :=
  match target with
  | none => ⟨st, dom, false⟩
  | some n =>
    if 0 < n ∧ n ≤ (st.totalPages : Int) then
      let st' := { st with currentPage := n.toNat }
      updatePagination st' (renderTable st' dom)
    else ⟨st, dom, false⟩

/-- The three region filter values read by the change handlers
(script.js lines 140-162). -/
structure Filters where
  departamento : String := ""
  provincia : String := ""
  distrito : String := ""
deriving DecidableEq, Repr

/-- The endpoint `fetchData` targets (script.js line 85). -/
def baseUrl : String := "/.netlify/functions/api/api/precios"

/-- The `URLSearchParams` built by `fetchData` (script.js lines 86-90):
each of the three keys is appended exactly when its value is truthy
(a non-empty string). -/
def buildParams (f : Filters) : List (String × String) :=
  (if f.departamento ≠ "" then [("departamento", f.departamento)] else []) ++
  (if f.provincia ≠ "" then [("provincia", f.provincia)] else []) ++
  (if f.distrito ≠ "" then [("distrito", f.distrito)] else [])

/-- `URLSearchParams.toString()`: `k=v` pairs joined by `&`. -/
def queryString (ps : List (String × String)) : String :=
  String.intercalate "&" (ps.map (fun p => p.1 ++ "=" ++ p.2))

/-- The request URL (script.js line 92): the base path, with
`?<query>` appended exactly when the parameter list is non-empty. -/
def buildUrl (f : Filters) : String :=
  if buildParams f = [] then baseUrl else baseUrl ++ "?" ++ queryString (buildParams f)

/-- The outcome of the `fetch` call, as far as `fetchData` observes it:
the promise rejects (network/transport error), or a response arrives with
`response.ok` false (non-2xx status), or with `ok` true and a JSON body. -/
inductive FetchOutcome where
  | networkError
  | httpError
  | success (body : List Record)
deriving DecidableEq, Repr

/-- `[...new Set(l)]` on strings: keep the first occurrence of each value. -/
def setDedup : List String → List String
  | [] => []
  | a :: l => a :: setDedup (l.filter (fun x => x ≠ a))
termination_by l => l.length
decreasing_by
  simp only [List.length_cons, Nat.lt_succ_iff]
  exact List.length_filter_le _ _

/-- `updateSelect` (script.js lines 129-137): no-op when the element is
absent; otherwise remembers the current value, rebuilds the option list as
the Todos/"" option followed by the sorted incoming values
(`new Option(o, o)` makes text = value), and reassigns the remembered
value - which selects it when it matches an option and otherwise leaves
the select reading `""`. -/
def updateSelect (sel : Option SelectElem) (options : List String) :
    Option SelectElem :=
  match sel with
  | none => none
  | some s =>
    let currentValue := s.value
    let opts := ("Todos", "") ::
      (options.insertionSort (· ≤ ·)).map (fun o => (o, o))
    let newValue :=
      if currentValue ∈ opts.map Prod.snd then currentValue else ""
    some ⟨opts, newValue⟩

/-- `updateFilterOptions` (script.js lines 112-127): for each of the four
fields, the distinct truthy values of the current data, fed to
`updateSelect` on the corresponding element. -/
def updateFilterOptions (st : ClientState) (dom : Dom) : Dom :=
  let departamentos :=
    setDedup ((st.currentData.map Record.DEPARTAMENTO).filter (· ≠ ""))
  let provincias :=
    setDedup ((st.currentData.map Record.PROVINCIA).filter (· ≠ ""))
  let distritos :=
    setDedup ((st.currentData.map Record.DISTRITO).filter (· ≠ ""))
  let tiposEstablecimiento :=
    setDedup ((st.currentData.map Record.TIPO_ESTABLECIMIENTO).filter (· ≠ ""))
  { dom with
      departamentoSelect := updateSelect dom.departamentoSelect departamentos,
      provinciaSelect := updateSelect dom.provinciaSelect provincias,
      distritoSelect := updateSelect dom.distritoSelect distritos,
      tipoEstablecimientoSelect :=
        updateSelect dom.tipoEstablecimientoSelect tiposEstablecimiento }

/-- Everything one `fetchData` call did: the state and DOM it left behind,
the URLs it fetched, how many alerts it raised, and whether the loading
overlay was shown at the start. -/
structure FetchResult where
  state : ClientState
  dom : Dom
  requests : List String
  alerts : Nat
  loadingShown : Bool
deriving DecidableEq, Repr

/-- `fetchData` (script.js lines 82-110).  Shows the loading overlay, issues
one GET to `buildUrl filters`, and then: on a rejected promise or a non-ok
response the catch block raises one alert and touches nothing else; on
success it overwrites `currentData` with the body, resets `currentPage`
to 1, re-renders the table, runs `updatePagination` (whose TypeError, if
any, lands in the same catch block, skipping `updateFilterOptions`), then
repopulates the filter selects.  The `finally` block hides the loading
overlay on every path. -/
def fetchData (st : ClientState) (dom : Dom) (filters : Filters)
    (outcome : FetchOutcome) : FetchResult :=
  let dom0 := { dom with loadingVisible := true }
  let url := buildUrl filters
  let res : FetchResult :=
    match outcome with
    | FetchOutcome.networkError => ⟨st, dom0, [url], 1, true⟩
    | FetchOutcome.httpError => ⟨st, dom0, [url], 1, true⟩
    | FetchOutcome.success body =>
      let st1 : ClientState := { st with currentData := body, currentPage := 1 }
      let dom1 := renderTable st1 dom0
      let pr := updatePagination st1 dom1
      if pr.threw then ⟨pr.state, pr.dom, [url], 1, true⟩
      else ⟨pr.state, updateFilterOptions pr.state pr.dom, [url], 0, true⟩
  { res with dom := { res.dom with loadingVisible := false } }

/-- A user interaction with one of the four filter selects.  A region
change carries the outcome of the fetch it triggers; an establishment-type
change carries none, because its handler performs no fetch. -/
inductive UiEvent where
  | regionChange (outcome : FetchOutcome)
  | tipoChange
deriving Repr

/-- What running one change handler did. -/
structure DispatchResult where
  state : ClientState
  dom : Dom
  requests : List String
  alerts : Nat
  threw : Bool
deriving DecidableEq, Repr

/-- The change handlers (script.js lines 140-172).  Each region handler
reads all three region select values with unguarded
`document.getElementById(id).value` - a TypeError when one is absent,
before any fetch - and calls `fetchData` with them.  The
establishment-type handler never fetches: with a truthy value it narrows
`currentData` by exact string equality on `TIPO_ESTABLECIMIENTO`, then in
either case resets `currentPage` to 1, re-renders and re-paginates
(an escaping TypeError from `updatePagination` leaves the already-updated
state in place). -/
def dispatch (st : ClientState) (dom : Dom) (ev : UiEvent) : DispatchResult :=
  match ev with
  | UiEvent.regionChange outcome =>
    match dom.departamentoSelect, dom.provinciaSelect, dom.distritoSelect with
    | some d, some p, some di =>
      let r := fetchData st dom ⟨d.value, p.value, di.value⟩ outcome
      ⟨r.state, r.dom, r.requests, r.alerts, false⟩
    | _, _, _ => ⟨st, dom, [], 0, true⟩
  | UiEvent.tipoChange =>
    match dom.tipoEstablecimientoSelect with
    | some sel =>
      let tipo := sel.value
      let st1 : ClientState :=
        if tipo ≠ "" then
          { st with currentData :=
              st.currentData.filter (fun r => r.TIPO_ESTABLECIMIENTO == tipo) }
        else st
      let st2 : ClientState := { st1 with currentPage := 1 }
      let dom1 := renderTable st2 dom
      let pr := updatePagination st2 dom1
      ⟨pr.state, pr.dom, [], 0, pr.threw⟩
    | none => ⟨st, dom, [], 0, false⟩

/-- An HTTP response as the serverless adapters see it. -/
structure HttpResponse where
  statusCode : Nat
  headers : List (String × String)
  body : String
deriving DecidableEq, Repr

/-- `res.setHeader(k, v)`: replace any existing header `k` with value `v`. -/
def setHeader (res : HttpResponse) (k v : String) : HttpResponse :=
  { res with headers := res.headers.filter (fun h => h.1 ≠ k) ++ [(k, v)] }

/-- The CORS callback configured in `src/api/api.js` lines 6-10: sets the
three permissive CORS headers on the response. -/
def corsCallback (res : HttpResponse) : HttpResponse :=
  setHeader
    (setHeader (setHeader res "Access-Control-Allow-Origin" "*")
      "Access-Control-Allow-Methods" "GET, POST, OPTIONS")
    "Access-Control-Allow-Headers" "Content-Type"

/-- Modelled from the spec: `createRequestHandler` (the `@netlify/functions`
library, outside src/) forwards each inbound event to the wrapped app and
applies the configured callback to the response before returning it
(spec section 4.2: the adapter "returns its response with CORS headers
attached"). -/
def createRequestHandlerModel (app : String → HttpResponse)
    (cb : HttpResponse → HttpResponse) (event : String) : HttpResponse :=
  cb (app event)

/-- The handler exported by `src/api/api.js`: `createRequestHandler` over
the app with the CORS callback. -/
def apiHandler (app : String → HttpResponse) (event : String) : HttpResponse :=
  createRequestHandlerModel app corsCallback event

/-- Modelled from the spec: `Mangum` (a third-party adapter, outside src/)
is "a request/response translation layer" (spec section 4.2) - it invokes
the wrapped app on the translated event and returns the app's response; it
sets no headers of its own. -/
def mangumWrap (app : String → HttpResponse) (event : String) : HttpResponse :=
  app event

/-- The handler exported at the bottom of `src/static/script.js`
(lines 181-184): wraps the app in `Mangum` and returns its result
unchanged; the handler body contains no header-setting code. -/
def scriptHandler (app : String → HttpResponse) (event : String) :
    HttpResponse :=
  mangumWrap app event

/-! ### Helper lemmas -/

/-- The conjunction claim C1 asserts about a loaded record set `data` and a
current page `p`: no exception, the computed total page count is
`⌈N/10⌉ = (N+9)/10`, the rendered table body holds exactly the records at
indices `10*(p-1)` through `min (10*p) N - 1`, and the info text reads
`Mostrando {10*(p-1)+1} a {min (10*p) N} de {N} registros`. -/
def pagingCorrect (data : List Record) (p : Nat) (dom : Dom) : Prop :=
  let st : ClientState := ⟨data, p, 0⟩
  let n := data.length
  let pr := updatePagination st (renderTable st dom)
  pr.threw = false ∧
  pr.state.totalPages = (n + 9) / 10 ∧
  (renderTable st dom).tableBody =
    some (((data.drop (10 * (p - 1))).take (min (10 * p) n - 10 * (p - 1))).map rowOf) ∧
  pr.dom.paginationInfo =
    some s!"Mostrando {10 * (p - 1) + 1} a {min (10 * p) n} de {n} registros"

/-- The page numbers offered as links by the windowed loop. -/
def shownPages (p tp : Nat) : List Nat :=
  (pageRange tp).filterMap (fun i =>
    match paginationEntry p tp i with
    | some (PageItem.page n _) => some n
    | _ => none)

/-- The window condition as the spec words it: first page, last page, or
within ±2 of the current page. -/
def specWindow (p tp i : Nat) : Prop :=
  i = 1 ∨ i = tp ∨ ((i : Int) - p).natAbs ≤ 2

instance (p tp i : Nat) : Decidable (specWindow p tp i) := by
  unfold specWindow; infer_instance

/-- A 15-record data set of LIMA records. -/
def dataLima15 : List Record :=
  List.replicate 15 { DEPARTAMENTO := "LIMA" }

/-- A fully populated DOM. -/
def domFull : Dom :=
  { tableBody := some []
    paginationContainer := some []
    paginationInfo := some ""
    departamentoSelect := some ⟨[("Todos", "")], ""⟩
    provinciaSelect := some ⟨[("Todos", "")], ""⟩
    distritoSelect := some ⟨[("Todos", "")], ""⟩
    tipoEstablecimientoSelect := some ⟨[("Todos", "")], ""⟩
    loadingVisible := false }

/-! ### Dispatch reduction lemmas -/

/-- What claim C3 asserts: an establishment-type change issues no request,
replaces the working set by the exact-match filter, resets to page 1 and
re-renders; a region change (with the three selectors present) issues
exactly one request. -/
def tipoNarrowClaim (st : ClientState) (dom : Dom) (sel : SelectElem) : Prop :=
  (dispatch st dom UiEvent.tipoChange).requests = [] ∧
  (dispatch st dom UiEvent.tipoChange).state.currentData =
    st.currentData.filter (fun r => decide (r.TIPO_ESTABLECIMIENTO = sel.value)) ∧
  (dispatch st dom UiEvent.tipoChange).state.currentPage = 1 ∧
  (∀ b, dom.tableBody = some b →
    (dispatch st dom UiEvent.tipoChange).dom.tableBody =
      some (((st.currentData.filter
        (fun r => decide (r.TIPO_ESTABLECIMIENTO = sel.value))).take 10).map rowOf)) ∧
  (∀ (oc : FetchOutcome) (d pv di : SelectElem),
    dom.departamentoSelect = some d → dom.provinciaSelect = some pv →
    dom.distritoSelect = some di →
    (dispatch st dom (UiEvent.regionChange oc)).requests =
      [buildUrl ⟨d.value, pv.value, di.value⟩])

/-- A FARMACIA record. -/
def recFarmacia : Record := { TIPO_ESTABLECIMIENTO := "FARMACIA" }

/-- A GRIFO record. -/
def recGrifo : Record := { TIPO_ESTABLECIMIENTO := "GRIFO" }

/-- A mixed 4-record working set. -/
def dataMixed : List Record := [recFarmacia, recGrifo, recFarmacia, recGrifo]

/-- The FARMACIA option selected. -/
def selFarmacia : SelectElem :=
  ⟨[("Todos", ""), ("FARMACIA", "FARMACIA"), ("GRIFO", "GRIFO")], "FARMACIA"⟩

/-- A DOM whose establishment-type selector is set to FARMACIA. -/
def domTipoFarmacia : Dom :=
  { domFull with tipoEstablecimientoSelect := some selFarmacia }

/-- What claim C10 asserts: an establishment-type change to the empty
"Todos" value issues no request, leaves `currentData` exactly as it was,
still resets the page to 1 and re-renders. -/
def tipoEmptyClaim (st : ClientState) (dom : Dom) : Prop :=
  (dispatch st dom UiEvent.tipoChange).requests = [] ∧
  (dispatch st dom UiEvent.tipoChange).state.currentData = st.currentData ∧
  (dispatch st dom UiEvent.tipoChange).state.currentPage = 1 ∧
  (∀ b, dom.tableBody = some b →
    (dispatch st dom UiEvent.tipoChange).dom.tableBody =
      some ((st.currentData.take 10).map rowOf))

/-- The Todos option selected. -/
def selTodos : SelectElem := ⟨[("Todos", ""), ("FARMACIA", "FARMACIA")], ""⟩

/-- A DOM whose establishment-type selector is back on Todos. -/
def domTipoTodos : Dom :=
  { domFull with tipoEstablecimientoSelect := some selTodos }

/-- What claim C4 asserts about a failing fetch: one alert, state and
rendered table untouched, the loading overlay shown at the start and
hidden at the end - and the overlay is also shown and hidden on every
other outcome of the same call. -/
def fetchFailureClaim (st : ClientState) (dom : Dom) (f : Filters)
    (oc : FetchOutcome) : Prop :=
  (fetchData st dom f oc).alerts = 1 ∧
  (fetchData st dom f oc).state = st ∧
  (fetchData st dom f oc).dom.tableBody = dom.tableBody ∧
  (fetchData st dom f oc).loadingShown = true ∧
  (fetchData st dom f oc).dom.loadingVisible = false ∧
  (∀ oc2 : FetchOutcome, (fetchData st dom f oc2).loadingShown = true ∧
    (fetchData st dom f oc2).dom.loadingVisible = false)

/-- What claim C6 asserts: a click updates the page and re-renders exactly
when the parsed target lies in `[1, totalPages]`; a click with no numeric
target (the ellipsis) or an out-of-range target changes nothing. -/
def pageClickClaim (st : ClientState) (dom : Dom) (target : Option Int) : Prop :=
  (target = none → pageLinkClick st dom target = ⟨st, dom, false⟩) ∧
  (∀ n, target = some n → ¬(1 ≤ n ∧ n ≤ (st.totalPages : Int)) →
    pageLinkClick st dom target = ⟨st, dom, false⟩) ∧
  (∀ n, target = some n → 1 ≤ n → n ≤ (st.totalPages : Int) →
    (pageLinkClick st dom target).state.currentPage = n.toNat ∧
    (∀ b, dom.tableBody = some b →
      (pageLinkClick st dom target).dom.tableBody =
        some (((st.currentData.drop ((n.toNat - 1) * 10)).take 10).map rowOf)))

/-- What claim C7 asserts about the query built from the three region
selector values: it contains exactly the non-empty ones of the three
parameters, the URL is the bare endpoint when all three are empty, a
region change issues exactly that one request, and a successful response
resets the current page to 1. -/
def regionFetchClaim (f : Filters) : Prop :=
  (∀ k v, (k, v) ∈ buildParams f ↔
      (k = "departamento" ∧ v = f.departamento ∧ f.departamento ≠ "") ∨
      (k = "provincia" ∧ v = f.provincia ∧ f.provincia ≠ "") ∨
      (k = "distrito" ∧ v = f.distrito ∧ f.distrito ≠ "")) ∧
  (f.departamento = "" ∧ f.provincia = "" ∧ f.distrito = "" →
    buildUrl f = baseUrl) ∧
  (buildUrl f = baseUrl ∨
    buildUrl f = baseUrl ++ "?" ++ queryString (buildParams f)) ∧
  (∀ (st : ClientState) (dom : Dom) (d pv di : SelectElem) (oc : FetchOutcome),
    dom.departamentoSelect = some d → dom.provinciaSelect = some pv →
    dom.distritoSelect = some di → f = ⟨d.value, pv.value, di.value⟩ →
    (dispatch st dom (UiEvent.regionChange oc)).requests = [buildUrl f]) ∧
  (∀ (st : ClientState) (dom : Dom) (body : List Record),
    (fetchData st dom f (FetchOutcome.success body)).state.currentPage = 1)

/-- What "the selector was repopulated from the values `vals`" means, per
claim C5: the option list starts with the single Todos/"" option, its
remaining values are strictly ascending (hence duplicate-free) and are
exactly the non-empty members of `vals`, and the previous selection
survives iff it is still an option value, falling back to `""`. -/
def repopulatedFrom (vals : List String) (old : SelectElem)
    (s' : SelectElem) : Prop :=
  s'.options.head? = some ("Todos", "") ∧
  ((s'.options.map Prod.snd).tail.Sorted (· < ·)) ∧
  (∀ v, v ∈ (s'.options.map Prod.snd).tail ↔ v ≠ "" ∧ v ∈ vals) ∧
  (old.value ∈ s'.options.map Prod.snd → s'.value = old.value) ∧
  (old.value ∉ s'.options.map Prod.snd → s'.value = "")

/-- What claim C5 asserts after a successful fetch of `body`: each of the
four selectors that is present in the DOM is repopulated from the
corresponding field of the fresh records. -/
def fetchRepopClaim (st : ClientState) (dom : Dom) (f : Filters)
    (body : List Record) : Prop :=
  (∀ s, dom.departamentoSelect = some s → ∃ s',
    (fetchData st dom f (FetchOutcome.success body)).dom.departamentoSelect =
      some s' ∧ repopulatedFrom (body.map Record.DEPARTAMENTO) s s') ∧
  (∀ s, dom.provinciaSelect = some s → ∃ s',
    (fetchData st dom f (FetchOutcome.success body)).dom.provinciaSelect =
      some s' ∧ repopulatedFrom (body.map Record.PROVINCIA) s s') ∧
  (∀ s, dom.distritoSelect = some s → ∃ s',
    (fetchData st dom f (FetchOutcome.success body)).dom.distritoSelect =
      some s' ∧ repopulatedFrom (body.map Record.DISTRITO) s s') ∧
  (∀ s, dom.tipoEstablecimientoSelect = some s → ∃ s',
    (fetchData st dom f
        (FetchOutcome.success body)).dom.tipoEstablecimientoSelect =
      some s' ∧ repopulatedFrom (body.map Record.TIPO_ESTABLECIMIENTO) s s')

/-- Two-record body with distinct departments provinces and types. -/
def bodyTwo : List Record :=
  [{ DEPARTAMENTO := "LIMA", PROVINCIA := "LIMA", DISTRITO := "ATE",
     TIPO_ESTABLECIMIENTO := "GRIFO" },
   { DEPARTAMENTO := "CUSCO", PROVINCIA := "CUSCO",
     TIPO_ESTABLECIMIENTO := "FARMACIA" }]

/-- A populated DOM whose pagination-info element is missing while the
pagination container is present. -/
def domNoInfo : Dom := { domFull with paginationInfo := none }

/-- The amended claim C8: each operation is a no-op for its own absent
target (absent table body, absent pagination container, absent select),
except that `updatePagination` throws exactly when the pagination
container is present, the record set non-empty, and the pagination-info
element absent. -/
def domAbsenceClaim (st : ClientState) (dom : Dom) : Prop :=
  (dom.tableBody = none → renderTable st dom = dom) ∧
  (dom.paginationContainer = none → updatePagination st dom = ⟨st, dom, false⟩) ∧
  (∀ opts, updateSelect none opts = none) ∧
  (dom.departamentoSelect = none →
    (updateFilterOptions st dom).departamentoSelect = none) ∧
  (dom.provinciaSelect = none →
    (updateFilterOptions st dom).provinciaSelect = none) ∧
  (dom.distritoSelect = none →
    (updateFilterOptions st dom).distritoSelect = none) ∧
  (dom.tipoEstablecimientoSelect = none →
    (updateFilterOptions st dom).tipoEstablecimientoSelect = none) ∧
  ((updatePagination st dom).threw = true ↔
    dom.paginationContainer ≠ none ∧ st.currentData ≠ [] ∧
      dom.paginationInfo = none)

/-- Witness for C8 (amended): a DOM with every element absent, and a
non-empty state. -/
def domEmpty : Dom :=
  { tableBody := none, paginationContainer := none, paginationInfo := none,
    departamentoSelect := none, provinciaSelect := none, distritoSelect := none,
    tipoEstablecimientoSelect := none, loadingVisible := false }

/-- A backing application returning a response with no headers at all. -/
def appNoHeaders : String → HttpResponse := fun _ => ⟨200, [], "[]"⟩

@[simp] lemma renderTable_paginationContainer (st : ClientState) (dom : Dom) :
    (renderTable st dom).paginationContainer = dom.paginationContainer := by
  unfold renderTable; cases dom.tableBody <;> rfl

@[simp] lemma renderTable_paginationInfo (st : ClientState) (dom : Dom) :
    (renderTable st dom).paginationInfo = dom.paginationInfo := by
  unfold renderTable; cases dom.tableBody <;> rfl

lemma renderTable_tableBody (st : ClientState) (dom : Dom) (b : List (List String))
    (hb : dom.tableBody = some b) :
    (renderTable st dom).tableBody =
      some (((st.currentData.drop ((st.currentPage - 1) * itemsPerPage)).take
        itemsPerPage).map rowOf) := by
  unfold renderTable; rw [hb]

lemma updatePagination_eq (st : ClientState) (dom : Dom)
    (c : List PageItem) (i : String)
    (hc : dom.paginationContainer = some c) (hi : dom.paginationInfo = some i)
    (hne : st.currentData ≠ []) :
    updatePagination st dom =
      ⟨{ st with totalPages := totalPagesCalc st.currentData.length },
       { dom with
          paginationInfo := some
            s!"Mostrando {(st.currentPage - 1) * itemsPerPage + 1} a {min (st.currentPage * itemsPerPage) st.currentData.length} de {st.currentData.length} registros",
          paginationContainer := some
            (paginationItems st.currentPage (totalPagesCalc st.currentData.length)) },
       false⟩ := by
  unfold updatePagination
  rw [hc, hi]
  simp [List.length_eq_zero, hne]

lemma totalPagesCalc_eq_ceil (n : Nat) : totalPagesCalc n = (n + 9) / 10 := by
  unfold totalPagesCalc itemsPerPage
  rcases Nat.eq_zero_or_pos (n % 10) with h | h <;> simp [Nat.ne_of_gt, h] <;> omega

/-! ### Claim C1 -/

/-- C1: for every loaded record set of size `N ≥ 1` and every page `p` with
`1 ≤ p ≤ ⌈N/10⌉`, with the table body, pagination container and
pagination-info present, `renderTable` followed by `updatePagination`
computes `⌈N/10⌉` total pages, renders exactly the records at indices
`10*(p-1)` through `min (10*p) N - 1`, and writes the info text
`Mostrando {10*(p-1)+1} a {min (10*p) N} de {N} registros`. -/
theorem pagination_renders_correct_page (data : List Record) (p : Nat) (dom : Dom)
    (hn : 1 ≤ data.length) (hp1 : 1 ≤ p) (hp2 : p ≤ (data.length + 9) / 10)
    (htb : dom.tableBody.isSome) (hpc : dom.paginationContainer.isSome)
    (hpi : dom.paginationInfo.isSome) :
    pagingCorrect data p dom := by
  obtain ⟨b, hb⟩ := Option.isSome_iff_exists.mp htb
  obtain ⟨c, hc⟩ := Option.isSome_iff_exists.mp hpc
  obtain ⟨i, hi⟩ := Option.isSome_iff_exists.mp hpi
  set st : ClientState := ⟨data, p, 0⟩ with hst
  set n := data.length with hnd
  have hne : st.currentData ≠ [] := List.length_pos.mp hn
  have hup := updatePagination_eq st (renderTable st dom) c i
    (by rw [renderTable_paginationContainer, hc])
    (by rw [renderTable_paginationInfo, hi]) hne
  have hlen : st.currentData.length = n := rfl
  have hpage : st.currentPage = p := rfl
  have hmul : (p - 1) * itemsPerPage = 10 * (p - 1) := by
    unfold itemsPerPage; ring
  have hmin : min (p * itemsPerPage) n = min (10 * p) n := by
    unfold itemsPerPage; rw [Nat.mul_comm]
  refine ⟨?_, ?_, ?_, ?_⟩
  · rw [hup]
  · rw [hup]
    simpa using totalPagesCalc_eq_ceil n
  · rw [renderTable_tableBody st dom b hb]
    have htake : (data.drop (10 * (p - 1))).take itemsPerPage =
        (data.drop (10 * (p - 1))).take (min (10 * p) n - 10 * (p - 1)) := by
      rcases Nat.le_total (10 * p) n with h | h
      · have : min (10 * p) n = 10 * p := Nat.min_eq_left h
        rw [this]
        have : 10 * p - 10 * (p - 1) = itemsPerPage := by
          unfold itemsPerPage; omega
        rw [this]
      · have hmn : min (10 * p) n = n := Nat.min_eq_right h
        rw [hmn]
        have hdl : (data.drop (10 * (p - 1))).length = n - 10 * (p - 1) := by
          rw [List.length_drop, hnd]
        have h1 : (data.drop (10 * (p - 1))).length ≤ itemsPerPage := by
          rw [hdl]; unfold itemsPerPage; omega
        have h2 : (data.drop (10 * (p - 1))).length ≤ n - 10 * (p - 1) := by
          rw [hdl]
        rw [List.take_of_length_le h1, List.take_of_length_le h2]
    rw [hlen, hpage, hmul, htake]
  · rw [hup]
    simp only []
    rw [hmul, hmin]

@[simp] lemma renderTable_departamento (st : ClientState) (dom : Dom) :
    (renderTable st dom).departamentoSelect = dom.departamentoSelect := by
  unfold renderTable; cases dom.tableBody <;> rfl

@[simp] lemma renderTable_provincia (st : ClientState) (dom : Dom) :
    (renderTable st dom).provinciaSelect = dom.provinciaSelect := by
  unfold renderTable; cases dom.tableBody <;> rfl

@[simp] lemma renderTable_distrito (st : ClientState) (dom : Dom) :
    (renderTable st dom).distritoSelect = dom.distritoSelect := by
  unfold renderTable; cases dom.tableBody <;> rfl

@[simp] lemma renderTable_tipoEstablecimiento (st : ClientState) (dom : Dom) :
    (renderTable st dom).tipoEstablecimientoSelect =
      dom.tipoEstablecimientoSelect := by
  unfold renderTable; cases dom.tableBody <;> rfl

@[simp] lemma updatePagination_currentData (st : ClientState) (dom : Dom) :
    (updatePagination st dom).state.currentData = st.currentData := by
  unfold updatePagination
  cases dom.paginationContainer
  · rfl
  · by_cases h : st.currentData.length = 0
    · simp only [if_pos h]
    · simp only [if_neg h]
      cases dom.paginationInfo <;> rfl

@[simp] lemma updatePagination_currentPage (st : ClientState) (dom : Dom) :
    (updatePagination st dom).state.currentPage = st.currentPage := by
  unfold updatePagination
  cases dom.paginationContainer
  · rfl
  · by_cases h : st.currentData.length = 0
    · simp only [if_pos h]
    · simp only [if_neg h]
      cases dom.paginationInfo <;> rfl

@[simp] lemma updatePagination_tableBody (st : ClientState) (dom : Dom) :
    (updatePagination st dom).dom.tableBody = dom.tableBody := by
  unfold updatePagination
  cases dom.paginationContainer
  · rfl
  · by_cases h : st.currentData.length = 0
    · simp only [if_pos h]
    · simp only [if_neg h]
      cases dom.paginationInfo <;> rfl

@[simp] lemma updatePagination_departamento (st : ClientState) (dom : Dom) :
    (updatePagination st dom).dom.departamentoSelect = dom.departamentoSelect := by
  unfold updatePagination
  cases dom.paginationContainer
  · rfl
  · by_cases h : st.currentData.length = 0
    · simp only [if_pos h]
    · simp only [if_neg h]
      cases dom.paginationInfo <;> rfl

@[simp] lemma updatePagination_provincia (st : ClientState) (dom : Dom) :
    (updatePagination st dom).dom.provinciaSelect = dom.provinciaSelect := by
  unfold updatePagination
  cases dom.paginationContainer
  · rfl
  · by_cases h : st.currentData.length = 0
    · simp only [if_pos h]
    · simp only [if_neg h]
      cases dom.paginationInfo <;> rfl

@[simp] lemma updatePagination_distrito (st : ClientState) (dom : Dom) :
    (updatePagination st dom).dom.distritoSelect = dom.distritoSelect := by
  unfold updatePagination
  cases dom.paginationContainer
  · rfl
  · by_cases h : st.currentData.length = 0
    · simp only [if_pos h]
    · simp only [if_neg h]
      cases dom.paginationInfo <;> rfl

@[simp] lemma updatePagination_tipoEstablecimiento (st : ClientState) (dom : Dom) :
    (updatePagination st dom).dom.tipoEstablecimientoSelect =
      dom.tipoEstablecimientoSelect := by
  unfold updatePagination
  cases dom.paginationContainer
  · rfl
  · by_cases h : st.currentData.length = 0
    · simp only [if_pos h]
    · simp only [if_neg h]
      cases dom.paginationInfo <;> rfl

lemma updatePagination_no_throw (st : ClientState) (dom : Dom)
    (hpi : dom.paginationInfo.isSome) :
    (updatePagination st dom).threw = false := by
  obtain ⟨i, hi⟩ := Option.isSome_iff_exists.mp hpi
  unfold updatePagination
  cases dom.paginationContainer
  · rfl
  · by_cases h : st.currentData.length = 0
    · simp only [if_pos h]
    · simp only [if_neg h]
      rw [hi]

@[simp] lemma fetchData_requests (st : ClientState) (dom : Dom) (f : Filters)
    (oc : FetchOutcome) :
    (fetchData st dom f oc).requests = [buildUrl f] := by
  unfold fetchData
  cases oc with
  | networkError => rfl
  | httpError => rfl
  | success body =>
    simp only []
    split <;> rfl

lemma fetchData_loading (st : ClientState) (dom : Dom) (f : Filters)
    (oc : FetchOutcome) :
    (fetchData st dom f oc).loadingShown = true ∧
    (fetchData st dom f oc).dom.loadingVisible = false := by
  unfold fetchData
  cases oc with
  | networkError => exact ⟨rfl, rfl⟩
  | httpError => exact ⟨rfl, rfl⟩
  | success body =>
    constructor
    · simp only []
      split <;> rfl
    · rfl

lemma fetchData_success_state (st : ClientState) (dom : Dom) (f : Filters)
    (body : List Record) :
    (fetchData st dom f (FetchOutcome.success body)).state =
      (updatePagination { st with currentData := body, currentPage := 1 }
        (renderTable { st with currentData := body, currentPage := 1 }
          { dom with loadingVisible := true })).state := by
  unfold fetchData
  simp only []
  split <;> rfl

/-! ### Claim C2 -/

lemma mem_pageRange (tp i : Nat) : i ∈ pageRange tp ↔ 1 ≤ i ∧ i ≤ tp := by
  unfold pageRange
  simp only [List.mem_map, List.mem_range]
  constructor
  · rintro ⟨a, ha, rfl⟩; omega
  · rintro ⟨h1, h2⟩; exact ⟨i - 1, by omega, by omega⟩

lemma pageRange_nodup (tp : Nat) : (pageRange tp).Nodup :=
  List.Nodup.map (fun a b h => by omega) (List.nodup_range tp)

lemma entry_pageNum (p tp i : Nat) :
    (match paginationEntry p tp i with
     | some (PageItem.page n _) => some n
     | _ => none) =
    if specWindow p tp i then some i else none := by
  have hiff : (i = 1 ∨ i = tp ∨ (p ≤ i + 2 ∧ i ≤ p + 2)) ↔
      (i = 1 ∨ i = tp ∨ ((i : Int) - p).natAbs ≤ 2) := by omega
  unfold paginationEntry specWindow
  by_cases h1 : i = 1 ∨ i = tp ∨ (p ≤ i + 2 ∧ i ≤ p + 2)
  · rw [if_pos h1, if_pos (hiff.mp h1)]
  · rw [if_neg h1, if_neg (fun hs => h1 (hiff.mpr hs))]
    by_cases h2 : i + 3 = p ∨ i = p + 3
    · rw [if_pos h2]
    · rw [if_neg h2]

lemma filterMap_if_eq_filter {α : Type} (l : List α) (P : α → Prop)
    [DecidablePred P] (f : α → Option α)
    (hf : ∀ a ∈ l, f a = if P a then some a else none) :
    l.filterMap f = l.filter (fun a => decide (P a)) := by
  induction l with
  | nil => rfl
  | cons a l ih =>
    rw [List.filterMap_cons, List.filter_cons, hf a (by simp)]
    by_cases h : P a <;>
      simp [h, ih (fun b hb => hf b (by simp [hb]))]

lemma shownPages_eq_filter (p tp : Nat) :
    shownPages p tp = (pageRange tp).filter (fun i => decide (specWindow p tp i)) := by
  unfold shownPages
  exact filterMap_if_eq_filter _ _ _ (fun i _ => entry_pageNum p tp i)

lemma mem_shownPages (p tp i : Nat) :
    i ∈ shownPages p tp ↔ (1 ≤ i ∧ i ≤ tp) ∧ specWindow p tp i := by
  rw [shownPages_eq_filter, List.mem_filter, mem_pageRange]
  simp

lemma shownPages_nodup (p tp : Nat) : (shownPages p tp).Nodup := by
  rw [shownPages_eq_filter]
  exact List.Nodup.filter _ (pageRange_nodup tp)

/-- C2: for every `totalPages ≥ 1` and current page `p ∈ [1, totalPages]`,
the windowed loop offers page 1 and page `totalPages` exactly once each,
offers exactly the pages `i ∈ [1, totalPages]` with `i = 1`, `i = totalPages`
or `|i - p| ≤ 2`, and emits the non-interactive ellipsis exactly at the
indices `i = p - 3` and `i = p + 3` that lie in `[1, totalPages]` and are
not shown as page links. -/
theorem pagination_window_correct (p tp : Nat)
    (h1 : 1 ≤ tp) (hp1 : 1 ≤ p) (hp2 : p ≤ tp) :
    (shownPages p tp).count 1 = 1 ∧
    (shownPages p tp).count tp = 1 ∧
    (∀ i, i ∈ shownPages p tp ↔ (1 ≤ i ∧ i ≤ tp) ∧ specWindow p tp i) ∧
    (∀ i, 1 ≤ i → i ≤ tp →
      (paginationEntry p tp i = some PageItem.ellipsis ↔
        (i + 3 = p ∨ i = p + 3) ∧ ¬ specWindow p tp i)) := by
  refine ⟨?_, ?_, fun i => mem_shownPages p tp i, ?_⟩
  · exact List.count_eq_one_of_mem (shownPages_nodup p tp)
      ((mem_shownPages p tp 1).mpr ⟨⟨le_refl 1, h1⟩, Or.inl rfl⟩)
  · exact List.count_eq_one_of_mem (shownPages_nodup p tp)
      ((mem_shownPages p tp tp).mpr ⟨⟨h1, le_refl tp⟩, Or.inr (Or.inl rfl)⟩)
  · intro i hi1 hi2
    unfold paginationEntry specWindow
    by_cases hw : i = 1 ∨ i = tp ∨ (p ≤ i + 2 ∧ i ≤ p + 2)
    · rw [if_pos hw]
      constructor
      · intro h; exact absurd h (by simp)
      · rintro ⟨-, hns⟩; exact absurd (by omega) hns
    · rw [if_neg hw]
      by_cases h2 : i + 3 = p ∨ i = p + 3
      · rw [if_pos h2]
        exact ⟨fun _ => ⟨h2, by omega⟩, fun _ => rfl⟩
      · rw [if_neg h2]
        constructor
        · intro h; exact absurd h (by simp)
        · rintro ⟨h, -⟩; exact absurd h h2

/-- Witness for C2: page 7 of 12 pages. -/
theorem pagination_window_correct_witness :
    1 ≤ 12 ∧ 1 ≤ 7 ∧ 7 ≤ 12 ∧
    ((shownPages 7 12).count 1 = 1 ∧
     (shownPages 7 12).count 12 = 1 ∧
     (∀ i, i ∈ shownPages 7 12 ↔ (1 ≤ i ∧ i ≤ 12) ∧ specWindow 7 12 i) ∧
     (∀ i, 1 ≤ i → i ≤ 12 →
       (paginationEntry 7 12 i = some PageItem.ellipsis ↔
         (i + 3 = 7 ∨ i = 7 + 3) ∧ ¬ specWindow 7 12 i))) :=
  ⟨by decide, by decide, by decide,
   pagination_window_correct 7 12 (by decide) (by decide) (by decide)⟩

lemma dispatch_tipo_eq (st : ClientState) (dom : Dom) (sel : SelectElem)
    (hsel : dom.tipoEstablecimientoSelect = some sel) (hne : sel.value ≠ "") :
    dispatch st dom UiEvent.tipoChange =
      (let st2 : ClientState :=
        { st with
            currentData :=
              st.currentData.filter (fun r => r.TIPO_ESTABLECIMIENTO == sel.value),
            currentPage := 1 }
       let pr := updatePagination st2 (renderTable st2 dom)
       ⟨pr.state, pr.dom, [], 0, pr.threw⟩) := by
  unfold dispatch
  rw [hsel]
  simp only [if_pos hne]

lemma dispatch_tipo_empty_eq (st : ClientState) (dom : Dom) (sel : SelectElem)
    (hsel : dom.tipoEstablecimientoSelect = some sel) (hemp : sel.value = "") :
    dispatch st dom UiEvent.tipoChange =
      (let st2 : ClientState := { st with currentPage := 1 }
       let pr := updatePagination st2 (renderTable st2 dom)
       ⟨pr.state, pr.dom, [], 0, pr.threw⟩) := by
  unfold dispatch
  rw [hsel]
  simp [hemp]

lemma dispatch_region_eq (st : ClientState) (dom : Dom) (d pv di : SelectElem)
    (hd : dom.departamentoSelect = some d) (hp : dom.provinciaSelect = some pv)
    (hdi : dom.distritoSelect = some di) (oc : FetchOutcome) :
    dispatch st dom (UiEvent.regionChange oc) =
      (let r := fetchData st dom ⟨d.value, pv.value, di.value⟩ oc
       ⟨r.state, r.dom, r.requests, r.alerts, false⟩) := by
  unfold dispatch
  rw [hd, hp, hdi]

lemma filter_tipo_beq_eq (l : List Record) (v : String) :
    l.filter (fun r => r.TIPO_ESTABLECIMIENTO == v) =
      l.filter (fun r => decide (r.TIPO_ESTABLECIMIENTO = v)) := by
  apply List.filter_congr
  intro a _
  by_cases h : a.TIPO_ESTABLECIMIENTO = v <;> simp [h]

/-! ### Claim C3 -/

/-- C3: changing the establishment-type selector to a non-empty value
issues no fetch, narrows `currentData` to the records whose
`TIPO_ESTABLECIMIENTO` equals the selected value, resets the page to 1 and
re-renders; changing a region selector always issues a fetch. -/
theorem tipo_change_filters_locally (st : ClientState) (dom : Dom)
    (sel : SelectElem) (hsel : dom.tipoEstablecimientoSelect = some sel)
    (hne : sel.value ≠ "") :
    tipoNarrowClaim st dom sel := by
  unfold tipoNarrowClaim
  rw [dispatch_tipo_eq st dom sel hsel hne]
  refine ⟨rfl, ?_, ?_, ?_, ?_⟩
  · simp only [updatePagination_currentData]
    exact filter_tipo_beq_eq st.currentData sel.value
  · simp only [updatePagination_currentPage]
  · intro b hb
    simp only [updatePagination_tableBody]
    rw [renderTable_tableBody _ _ b hb]
    simp only [itemsPerPage]
    rw [filter_tipo_beq_eq]
    norm_num
  · intro oc d pv di hd hp hdi
    rw [dispatch_region_eq st dom d pv di hd hp hdi oc]
    simp only [fetchData_requests]

/-- Witness for C3: selecting FARMACIA on the mixed set. -/
theorem tipo_change_filters_locally_witness :
    domTipoFarmacia.tipoEstablecimientoSelect = some selFarmacia ∧
    selFarmacia.value ≠ "" ∧
    tipoNarrowClaim ⟨dataMixed, 1, 1⟩ domTipoFarmacia selFarmacia :=
  ⟨by decide, by decide,
   tipo_change_filters_locally ⟨dataMixed, 1, 1⟩ domTipoFarmacia selFarmacia
     (by decide) (by decide)⟩

/-! ### Claim C10 -/

/-- C10: changing the establishment-type selector to the empty value
fetches nothing and keeps `currentData` unchanged (previously narrowed
records are not restored), while resetting to page 1 and re-rendering. -/
theorem tipo_change_empty_keeps_data (st : ClientState) (dom : Dom)
    (sel : SelectElem) (hsel : dom.tipoEstablecimientoSelect = some sel)
    (hemp : sel.value = "") :
    tipoEmptyClaim st dom := by
  unfold tipoEmptyClaim
  rw [dispatch_tipo_empty_eq st dom sel hsel hemp]
  refine ⟨rfl, ?_, ?_, ?_⟩
  · simp only [updatePagination_currentData]
  · simp only [updatePagination_currentPage]
  · intro b hb
    simp only [updatePagination_tableBody]
    rw [renderTable_tableBody _ _ b hb]
    simp only [itemsPerPage]
    norm_num

/-- Witness for C10: selecting Todos on a previously narrowed set. -/
theorem tipo_change_empty_keeps_data_witness :
    domTipoTodos.tipoEstablecimientoSelect = some selTodos ∧
    selTodos.value = "" ∧
    tipoEmptyClaim ⟨[recFarmacia, recFarmacia], 1, 1⟩ domTipoTodos :=
  ⟨by decide, by decide,
   tipo_change_empty_keeps_data ⟨[recFarmacia, recFarmacia], 1, 1⟩ domTipoTodos
     selTodos (by decide) (by decide)⟩

/-! ### Claim C4 -/

/-- C4: a failed fetch (rejected promise or non-ok response) raises exactly
one alert, leaves `(currentData, currentPage)` and the rendered table
unchanged, and the loading overlay - shown at the start of every fetch -
is hidden afterwards on every path. -/
theorem fetch_failure_behavior (st : ClientState) (dom : Dom) (f : Filters)
    (oc : FetchOutcome)
    (hfail : oc = FetchOutcome.networkError ∨ oc = FetchOutcome.httpError) :
    fetchFailureClaim st dom f oc := by
  have hall : ∀ oc2 : FetchOutcome, (fetchData st dom f oc2).loadingShown = true ∧
      (fetchData st dom f oc2).dom.loadingVisible = false :=
    fun oc2 => fetchData_loading st dom f oc2
  rcases hfail with h | h <;> subst h <;>
    exact ⟨rfl, rfl, rfl, rfl, rfl, hall⟩

/-- Witness for C4: an HTTP 500 on the initial unfiltered load. -/
theorem fetch_failure_behavior_witness :
    (FetchOutcome.httpError = FetchOutcome.networkError ∨
      FetchOutcome.httpError = FetchOutcome.httpError) ∧
    fetchFailureClaim ⟨[], 1, 0⟩ domFull ⟨"", "", ""⟩ FetchOutcome.httpError :=
  ⟨Or.inr rfl,
   fetch_failure_behavior ⟨[], 1, 0⟩ domFull ⟨"", "", ""⟩ FetchOutcome.httpError
     (Or.inr rfl)⟩

/-! ### Claim C6 -/

/-- C6: the page-link click handler updates the current page and re-renders
iff the link's target parses to an integer in `[1, totalPages]`; the
ellipsis (no target) and out-of-range targets (0 from Anterior on page 1,
`totalPages + 1` from Siguiente on the last page) leave state and table
unchanged. -/
theorem page_click_in_range_only (st : ClientState) (dom : Dom)
    (target : Option Int) : pageClickClaim st dom target := by
  have hred : ∀ n : Int, pageLinkClick st dom (some n) =
      if 0 < n ∧ n ≤ (st.totalPages : Int) then
        (let st' : ClientState := { st with currentPage := n.toNat }
         updatePagination st' (renderTable st' dom))
      else ⟨st, dom, false⟩ := fun n => rfl
  unfold pageClickClaim
  refine ⟨?_, ?_, ?_⟩
  · intro h; subst h; rfl
  · intro n h hout
    subst h
    rw [hred n, if_neg (fun hc => hout (by omega))]
  · intro n h h1 h2
    subst h
    rw [hred n, if_pos ⟨by omega, h2⟩]
    constructor
    · rw [updatePagination_currentPage]
    · intro b hb
      rw [updatePagination_tableBody, renderTable_tableBody _ _ b hb]
      simp only [itemsPerPage]

/-- Witness for C6: clicking page 2 with 15 records loaded
(`totalPages = 2`), and clicking the out-of-range Siguiente target 3. -/
theorem page_click_in_range_only_witness :
    pageClickClaim ⟨dataLima15, 1, 2⟩ domFull (some 2) ∧
    pageClickClaim ⟨dataLima15, 2, 2⟩ domFull (some 3) :=
  ⟨page_click_in_range_only ⟨dataLima15, 1, 2⟩ domFull (some 2),
   page_click_in_range_only ⟨dataLima15, 2, 2⟩ domFull (some 3)⟩

/-! ### Claim C7 -/

/-- C7: every region-filter change issues one GET to
`/.netlify/functions/api/api/precios` whose query string holds exactly the
non-empty ones of `departamento`, `provincia`, `distrito` (and no query
string when all three are empty), and a successful response resets the
current page to 1. -/
theorem region_fetch_query_exact (f : Filters) : regionFetchClaim f := by
  unfold regionFetchClaim
  refine ⟨?_, ?_, ?_, ?_, ?_⟩
  · intro k v
    by_cases hd : f.departamento = "" <;> by_cases hp : f.provincia = "" <;>
      by_cases hdi : f.distrito = "" <;>
      simp [buildParams, hd, hp, hdi, Prod.ext_iff]
  · rintro ⟨hd, hp, hdi⟩
    unfold buildUrl
    rw [if_pos (by simp [buildParams, hd, hp, hdi])]
  · unfold buildUrl
    by_cases h : buildParams f = []
    · rw [if_pos h]; exact Or.inl rfl
    · rw [if_neg h]; exact Or.inr rfl
  · intro st dom d pv di oc hd hp hdi hf
    rw [dispatch_region_eq st dom d pv di hd hp hdi oc]
    simp only [fetchData_requests, hf]
  · intro st dom body
    rw [fetchData_success_state, updatePagination_currentPage]

/-- Witness for C7: department LIMA and district CHORRILLOS selected,
province on "all". -/
theorem region_fetch_query_exact_witness :
    regionFetchClaim ⟨"LIMA", "", "CHORRILLOS"⟩ :=
  region_fetch_query_exact ⟨"LIMA", "", "CHORRILLOS"⟩

/-! ### Claim C5 -/

lemma setDedup_mem : ∀ (l : List String) (a : String),
    a ∈ setDedup l ↔ a ∈ l
  | [], _ => by rw [setDedup]
  | b :: l, a => by
    rw [setDedup]
    constructor
    · intro h
      rcases List.mem_cons.mp h with h | h
      · exact List.mem_cons.mpr (Or.inl h)
      · exact List.mem_cons.mpr (Or.inr (List.mem_of_mem_filter
          ((setDedup_mem (l.filter (fun x => x ≠ b)) a).mp h)))
    · intro h
      rcases List.mem_cons.mp h with h | h
      · exact List.mem_cons.mpr (Or.inl h)
      · by_cases hab : a = b
        · exact List.mem_cons.mpr (Or.inl hab)
        · exact List.mem_cons.mpr (Or.inr ((setDedup_mem _ a).mpr
            (List.mem_filter.mpr ⟨h, by simp [hab]⟩)))
termination_by l _ => l.length
decreasing_by
  all_goals
    simp only [List.length_cons, Nat.lt_succ_iff]
    exact List.length_filter_le _ _

lemma setDedup_nodup : ∀ l : List String, (setDedup l).Nodup
  | [] => by rw [setDedup]; exact List.nodup_nil
  | b :: l => by
    rw [setDedup]
    refine List.nodup_cons.mpr ⟨?_, setDedup_nodup (l.filter (fun x => x ≠ b))⟩
    intro hmem
    have := List.mem_filter.mp ((setDedup_mem _ b).mp hmem)
    simp at this
termination_by l => l.length
decreasing_by
  simp only [List.length_cons, Nat.lt_succ_iff]
  exact List.length_filter_le _ _

lemma sorted_lt_of_sorted_le_nodup {l : List String}
    (hs : l.Sorted (· ≤ ·)) (hn : l.Nodup) : l.Sorted (· < ·) := by
  induction l with
  | nil => simp
  | cons a l ih =>
    rw [List.sorted_cons] at hs ⊢
    rw [List.nodup_cons] at hn
    exact ⟨fun b hb => lt_of_le_of_ne (hs.1 b hb) (fun he => hn.1 (he ▸ hb)),
      ih hs.2 hn.2⟩

lemma map_snd_diag (l : List String) :
    l.map (Prod.snd ∘ fun o : String => (o, o)) = l := by
  induction l with
  | nil => rfl
  | cons a l ih =>
    rw [List.map_cons, ih]
    rfl

lemma updateSelect_repopulates (s : SelectElem) (vals : List String) :
    ∃ s', updateSelect (some s) (setDedup (vals.filter (· ≠ ""))) = some s' ∧
      repopulatedFrom vals s s' := by
  set sorted := (setDedup (vals.filter (· ≠ ""))).insertionSort (· ≤ ·) with hsorted
  set opts := ("Todos", "") :: sorted.map (fun o => (o, o)) with hopts
  refine ⟨⟨opts, if s.value ∈ opts.map Prod.snd then s.value else ""⟩, rfl,
    ?_, ?_, ?_, ?_, ?_⟩
  · rfl
  · have hmapsnd : (opts.map Prod.snd).tail = sorted := by
      rw [hopts]
      simp only [List.map_cons, List.tail_cons, List.map_map]
      exact map_snd_diag sorted
    rw [hmapsnd]
    have hperm : List.Perm sorted (setDedup (vals.filter (· ≠ ""))) :=
      List.perm_insertionSort (· ≤ ·) (setDedup (vals.filter (· ≠ "")))
    exact sorted_lt_of_sorted_le_nodup
      (List.sorted_insertionSort (· ≤ ·) _)
      (hperm.nodup_iff.mpr (setDedup_nodup _))
  · intro v
    have hmapsnd : (opts.map Prod.snd).tail = sorted := by
      rw [hopts]
      simp only [List.map_cons, List.tail_cons, List.map_map]
      exact map_snd_diag sorted
    rw [hmapsnd, hsorted]
    rw [List.Perm.mem_iff (List.perm_insertionSort _ _), setDedup_mem,
      List.mem_filter]
    simp [and_comm]
  · intro h
    simp only [if_pos h]
  · intro h
    simp only [if_neg h]

@[simp] lemma updateFilterOptions_departamento (st : ClientState) (dom : Dom) :
    (updateFilterOptions st dom).departamentoSelect =
      updateSelect dom.departamentoSelect
        (setDedup ((st.currentData.map Record.DEPARTAMENTO).filter (· ≠ ""))) := rfl

@[simp] lemma updateFilterOptions_provincia (st : ClientState) (dom : Dom) :
    (updateFilterOptions st dom).provinciaSelect =
      updateSelect dom.provinciaSelect
        (setDedup ((st.currentData.map Record.PROVINCIA).filter (· ≠ ""))) := rfl

@[simp] lemma updateFilterOptions_distrito (st : ClientState) (dom : Dom) :
    (updateFilterOptions st dom).distritoSelect =
      updateSelect dom.distritoSelect
        (setDedup ((st.currentData.map Record.DISTRITO).filter (· ≠ ""))) := rfl

@[simp] lemma updateFilterOptions_tipo (st : ClientState) (dom : Dom) :
    (updateFilterOptions st dom).tipoEstablecimientoSelect =
      updateSelect dom.tipoEstablecimientoSelect
        (setDedup ((st.currentData.map Record.TIPO_ESTABLECIMIENTO).filter
          (· ≠ ""))) := rfl

lemma fetchData_success_eq (st : ClientState) (dom : Dom) (f : Filters)
    (body : List Record) (hpi : dom.paginationInfo.isSome) :
    fetchData st dom f (FetchOutcome.success body) =
      (let st1 : ClientState := { st with currentData := body, currentPage := 1 }
       let dom1 := renderTable st1 { dom with loadingVisible := true }
       let pr := updatePagination st1 dom1
       ⟨pr.state,
        { (updateFilterOptions pr.state pr.dom) with loadingVisible := false },
        [buildUrl f], 0, true⟩) := by
  have hthrew : (updatePagination { st with currentData := body, currentPage := 1 }
      (renderTable { st with currentData := body, currentPage := 1 }
        { dom with loadingVisible := true })).threw = false :=
    updatePagination_no_throw _ _ (by rw [renderTable_paginationInfo]; exact hpi)
  unfold fetchData
  simp only []
  rw [if_neg (by rw [hthrew]; simp)]

/-- C5: after every successful fetch (with the pagination-info element
present, so the render path completes), each present selector's option
list becomes the Todos/"" option followed by the strictly ascending,
duplicate-free list of exactly the non-empty values of the corresponding
field of the fresh records, and the previous selection survives iff still
present, else falls back to the empty value. -/
theorem fetch_repopulates_selects (st : ClientState) (dom : Dom) (f : Filters)
    (body : List Record) (hpi : dom.paginationInfo.isSome) :
    fetchRepopClaim st dom f body := by
  unfold fetchRepopClaim
  rw [fetchData_success_eq st dom f body hpi]
  simp only [updateFilterOptions_departamento, updateFilterOptions_provincia,
    updateFilterOptions_distrito, updateFilterOptions_tipo,
    updatePagination_departamento, updatePagination_provincia,
    updatePagination_distrito, updatePagination_tipoEstablecimiento,
    renderTable_departamento, renderTable_provincia, renderTable_distrito,
    renderTable_tipoEstablecimiento, updatePagination_currentData]
  refine ⟨?_, ?_, ?_, ?_⟩ <;> intro s hs <;> rw [hs] <;>
    exact updateSelect_repopulates s _

/-- Witness for C5: a successful two-record fetch against the full DOM. -/
theorem fetch_repopulates_selects_witness :
    domFull.paginationInfo.isSome = true ∧
    fetchRepopClaim ⟨[], 1, 0⟩ domFull ⟨"", "", ""⟩ bodyTwo :=
  ⟨by decide,
   fetch_repopulates_selects ⟨[], 1, 0⟩ domFull ⟨"", "", ""⟩ bodyTwo (by decide)⟩

/-! ### Claim C8 -/

/-- Counterexample to C8 as stated: with the pagination container present,
a non-empty record set and the pagination-info element absent,
`updatePagination` throws (it writes `paginationInfo.textContent` without
a null check), so not every operation tolerates an absent element. -/
theorem updatePagination_throws_on_missing_info :
    (updatePagination ⟨[recFarmacia], 1, 0⟩ domNoInfo).threw = true := by decide

/-- C8 (amended): every client operation tolerates the absence of its own
target element as a no-op, with the single exception that
`updatePagination` throws when the pagination container is present, the
data non-empty, and the pagination-info element absent. -/
theorem dom_absence_tolerated (st : ClientState) (dom : Dom) :
    domAbsenceClaim st dom := by
  unfold domAbsenceClaim
  refine ⟨?_, ?_, fun _ => rfl, ?_, ?_, ?_, ?_, ?_⟩
  · intro h; unfold renderTable; rw [h]
  · intro h; unfold updatePagination; rw [h]
  · intro h; rw [updateFilterOptions_departamento, h]; rfl
  · intro h; rw [updateFilterOptions_provincia, h]; rfl
  · intro h; rw [updateFilterOptions_distrito, h]; rfl
  · intro h; rw [updateFilterOptions_tipo, h]; rfl
  · rcases hc : dom.paginationContainer with _ | c
    · have hf : (updatePagination st dom).threw = false := by
        unfold updatePagination
        rw [hc]
      rw [hf]
      simp
    · rcases hi : dom.paginationInfo with _ | i
      · by_cases h : st.currentData.length = 0
        · have hf : (updatePagination st dom).threw = false := by
            unfold updatePagination
            rw [hc]
            simp only [if_pos h]
          rw [hf]
          simp [List.length_eq_zero.mp h]
        · have ht : (updatePagination st dom).threw = true := by
            unfold updatePagination
            rw [hc]
            simp only [if_neg h]
            rw [hi]
          rw [ht]
          constructor
          · intro
            exact ⟨by simp, fun he => h (by rw [he]; rfl), rfl⟩
          · intro
            rfl
      · have hf : (updatePagination st dom).threw = false := by
          unfold updatePagination
          rw [hc]
          by_cases h : st.currentData.length = 0
          · simp only [if_pos h]
          · simp only [if_neg h]
            rw [hi]
        rw [hf]
        simp

/-- Witness for C8: the all-absent DOM with one record loaded. -/
theorem dom_absence_tolerated_witness :
    domAbsenceClaim ⟨[recFarmacia], 1, 0⟩ domEmpty :=
  dom_absence_tolerated ⟨[recFarmacia], 1, 0⟩ domEmpty

/-! ### Claim C9 -/

/-- Counterexample to C9 as stated: the Mangum-based handler at the bottom
of script.js returns the app's response as-is, so when the app sets no
headers the response carries no `Access-Control-Allow-Origin` header at
all - the second adapter variant does not attach the CORS headers. -/
theorem mangum_variant_lacks_cors :
    ("Access-Control-Allow-Origin", "*") ∉
      (scriptHandler appNoHeaders "event").headers := by decide

/-- C9 (amended): the `createRequestHandler` variant in `src/api/api.js`
attaches the three permissive CORS headers to every response it returns,
while the Mangum variant at the bottom of script.js returns the wrapped
application's response unchanged, attaching no headers. -/
theorem cors_headers_api_variant_only (app : String → HttpResponse)
    (event : String) :
    ("Access-Control-Allow-Origin", "*") ∈ (apiHandler app event).headers ∧
    ("Access-Control-Allow-Methods", "GET, POST, OPTIONS") ∈
      (apiHandler app event).headers ∧
    ("Access-Control-Allow-Headers", "Content-Type") ∈
      (apiHandler app event).headers ∧
    scriptHandler app event = app event := by
  refine ⟨?_, ?_, ?_, rfl⟩ <;>
    simp +decide [apiHandler, createRequestHandlerModel, corsCallback, setHeader]

/-- Witness for C1: the 15-record set on page 2. -/
theorem pagination_renders_correct_page_witness :
    1 ≤ dataLima15.length ∧ 1 ≤ 2 ∧ 2 ≤ (dataLima15.length + 9) / 10 ∧
    domFull.tableBody.isSome ∧ domFull.paginationContainer.isSome ∧
    domFull.paginationInfo.isSome ∧ pagingCorrect dataLima15 2 domFull :=
  ⟨by decide, by decide, by decide, by decide, by decide, by decide,
   pagination_renders_correct_page dataLima15 2 domFull (by decide) (by decide)
     (by decide) (by decide) (by decide) (by decide)⟩

